import Mathlib

/-!
Shallow embedding of the soloq-tracker snapshot engine
(`src/api/snapshot.js`, with the milestone-detection variant in
`src/unnamed/part_001`), together with theorems settling the spec claims.

Machine integers of the source are modelled as `Int`; JavaScript object
lookups (`TIER_ORDER[tier]`) become `Option Int`-valued functions; the
`??` / `||` defaulting operators become `Option.getD` (note that `x || 0`
on an integer `x` is the identity, since the only falsy integer is `0`
itself); fallible upstream calls (`riotGet`) return `Except Unit`, while
optional calls (`riotGetOpt`) return `Option`.
-/

/-- Embedding of the `TIER_ORDER` object of `snapshot.js`:
`{ IRON:0, BRONZE:1, SILVER:2, GOLD:3, PLATINUM:4, EMERALD:5, DIAMOND:6,
MASTER:7, GRANDMASTER:8, CHALLENGER:9 }`, as a property lookup returning
`none` for keys not in the object. -/
def TIER_ORDER (t : String) : Option Int :=
  if t = "IRON" then some 0
  else if t = "BRONZE" then some 1
  else if t = "SILVER" then some 2
  else if t = "GOLD" then some 3
  else if t = "PLATINUM" then some 4
  else if t = "EMERALD" then some 5
  else if t = "DIAMOND" then some 6
  else if t = "MASTER" then some 7
  else if t = "GRANDMASTER" then some 8
  else if t = "CHALLENGER" then some 9
  else none

/-- Embedding of the `RANK_ORDER` object: `{ IV:0, III:1, II:2, I:3 }`. -/
def RANK_ORDER (r : String) : Option Int :=
  if r = "IV" then some 0
  else if r = "III" then some 1
  else if r = "II" then some 2
  else if r = "I" then some 3
  else none

/-- The value of the JS expression `TIER_ORDER[tier] ?? -1`. -/
def tierIdxVal (t : String) : Int := (TIER_ORDER t).getD (-1)

/-- The value of the JS expression `RANK_ORDER[rank] ?? 0`; a `null` or
unknown division yields `0`. -/
def rankIdxVal (r : Option String) : Int :=
  match r with
  | none => 0
  | some s => (RANK_ORDER s).getD 0

/-- Embedding of `rankScore(tier, rank, lp)` from `snapshot.js` lines 35-38:
`if (!tier) return -1; return (TIER_ORDER[tier] ?? -1) * 10000 +
(RANK_ORDER[rank] ?? 0) * 1000 + (lp || 0)`. The JS falsiness test `!tier`
is true for `null`/`undefined` (here `none`) and for the empty string, and
`lp || 0` is the identity on integers. -/
def rankScore (tier rank : Option String) (lp : Int) : Int :=
  match tier with
  | none => -1
  | some t =>
      if t = "" then -1
      else tierIdxVal t * 10000 + rankIdxVal rank * 1000 + lp

theorem TIER_ORDER_range (t : String) (i : Int) (h : TIER_ORDER t = some i) :
    0 ≤ i ∧ i ≤ 9 := by
  unfold TIER_ORDER at h
  split_ifs at h <;> simp_all <;> omega

theorem RANK_ORDER_range (r : String) (i : Int) (h : RANK_ORDER r = some i) :
    0 ≤ i ∧ i ≤ 3 := by
  unfold RANK_ORDER at h
  split_ifs at h <;> simp_all <;> omega

theorem TIER_ORDER_empty : TIER_ORDER "" = none := by decide

theorem rankIdxVal_nonneg (r : Option String) : 0 ≤ rankIdxVal r := by
  match r with
  | none => simp [rankIdxVal]
  | some s =>
      simp only [rankIdxVal]
      cases h : RANK_ORDER s with
      | none => simp
      | some i => have := RANK_ORDER_range s i h; simp; omega

theorem rankScore_valid_eq (t : String) (it : Int) (ht : TIER_ORDER t = some it)
    (rank : Option String) (lp : Int) :
    rankScore (some t) rank lp = it * 10000 + rankIdxVal rank * 1000 + lp := by
  have hne : t ≠ "" := by
    intro he
    rw [he, TIER_ORDER_empty] at ht
    cases ht
  simp [rankScore, hne, tierIdxVal, ht]

/-- C1 counterexample: a Gold I score with 10000 points exceeds a
Platinum IV score with 0 points, although Platinum is the strictly higher
tier — so with points an arbitrary integer ≥ 0, a higher tier does *not*
exceed every score at a lower tier. -/
theorem c1_counterexample :
    TIER_ORDER "GOLD" = some 3 ∧ TIER_ORDER "PLATINUM" = some 4 ∧
    rankScore (some "PLATINUM") (some "IV") 0
      < rankScore (some "GOLD") (some "I") 10000 := by
  decide

/-- C1 (amended): with points restricted to `0 ≤ lp < 1000` (instead of an
arbitrary integer ≥ 0), `rankScore` is strictly monotonic lexicographically
in tier index, then division index, then points, for valid tiers and
divisions; and the unranked sentinel `-1` is strictly less than every
ranked score with nonnegative points, `rankScore` on a `null` tier being
exactly `-1`. -/
theorem c1_rankScore_lex_amended (t t' d d' : String) (lp lp' it it' id id' : Int)
    (ht : TIER_ORDER t = some it) (ht' : TIER_ORDER t' = some it')
    (hd : RANK_ORDER d = some id) (hd' : RANK_ORDER d' = some id')
    (hlp0 : 0 ≤ lp) (hlp1 : lp < 1000) (hlp0' : 0 ≤ lp') (hlp1' : lp' < 1000) :
    ((it < it' ∨ (it = it' ∧ id < id') ∨ (it = it' ∧ id = id' ∧ lp < lp')) →
        rankScore (some t) (some d) lp < rankScore (some t') (some d') lp') ∧
      rankScore none (some d) lp = -1 ∧
      rankScore none (some d) lp < rankScore (some t) (some d) lp := by
  have hit := TIER_ORDER_range t it ht
  have hit' := TIER_ORDER_range t' it' ht'
  have hid := RANK_ORDER_range d id hd
  have hid' := RANK_ORDER_range d' id' hd'
  have e1 := rankScore_valid_eq t it ht (some d) lp
  have e2 := rankScore_valid_eq t' it' ht' (some d') lp'
  have hrv : rankIdxVal (some d) = id := by simp [rankIdxVal, hd]
  have hrv' : rankIdxVal (some d') = id' := by simp [rankIdxVal, hd']
  rw [hrv] at e1
  rw [hrv'] at e2
  refine ⟨fun hlex => ?_, rfl, ?_⟩
  · rw [e1, e2]; omega
  · show (-1 : Int) < _
    rw [e1]; omega

/-- C1 witness: the amended lexicographic theorem applied at
Gold III 999 LP versus Platinum IV 0 LP. -/
theorem c1_rankScore_lex_witness :
    (((3 : Int) < 4 ∨ ((3 : Int) = 4 ∧ (1 : Int) < 0) ∨
          ((3 : Int) = 4 ∧ (1 : Int) = 0 ∧ (999 : Int) < 0)) →
        rankScore (some "GOLD") (some "III") 999
          < rankScore (some "PLATINUM") (some "IV") 0) ∧
      rankScore none (some "III") 999 = -1 ∧
      rankScore none (some "III") 999 < rankScore (some "GOLD") (some "III") 999 :=
  c1_rankScore_lex_amended "GOLD" "PLATINUM" "III" "IV" 999 0 3 4 1 0
    (by decide) (by decide) (by decide) (by decide)
    (by decide) (by decide) (by decide) (by decide)

/-!
Data model: rows of the four Supabase tables used by `snapshot.js`
(`players`, `rank_history`, `matches`, `player_matches`), the upstream
response shapes, and the roster seeds. ISO timestamp strings are modelled
as integers (only equality of the per-cycle `now` matters).
-/

/-- The `players` table row written by `buildSnapshot` (and the shape
returned by the initial `select` of previous players, of which the cycle
reads `puuid, tier, rank, lp, wins, losses`). -/
structure PlayerRow where
  puuid : String
  game_name : String
  tag_line : String
  profile_icon_id : Int
  summoner_level : Int
  tier : Option String
  rank : Option String
  lp : Int
  wins : Int
  losses : Int
  in_game : Bool
  updated_at : Int
deriving DecidableEq

/-- The `rank_history` table row. -/
structure HistoryRow where
  puuid : String
  tier : Option String
  rank : Option String
  lp : Int
  wins : Int
  losses : Int
  score : Int
  recorded_at : Int
deriving DecidableEq

/-- One participant's stats object stored inside a `matches` row's `data`
object (`{ win, champ, k, d, a }`). -/
structure PartStats where
  win : Bool
  champ : String
  k : Int
  d : Int
  a : Int
deriving DecidableEq

/-- The `matches` table row: match id, fetch timestamp, and the
participant-keyed `data` object. -/
structure MatchRow where
  match_id : String
  fetched_at : Int
  data : List (String × PartStats)
deriving DecidableEq

/-- The `player_matches` table row, keyed by `(puuid, match_id)`. -/
structure PMRow where
  puuid : String
  match_id : String
  win : Bool
  champ : String
  kills : Int
  deaths : Int
  assists : Int
  played_at : Int
deriving DecidableEq

/-- The persistent store: the four tables the engine touches. -/
structure DB where
  players : List PlayerRow
  rank_history : List HistoryRow
  matches' : List MatchRow
  player_matches : List PMRow
deriving DecidableEq

/-- Response of `/riot/account/v1/accounts/by-riot-id`. -/
structure AccountResp where
  puuid : String
  gameName : String
  tagLine : String
deriving DecidableEq

/-- Response of `/lol/summoner/v4/summoners/by-puuid`. -/
structure SummonerResp where
  profileIconId : Int
  summonerLevel : Int
deriving DecidableEq

/-- One entry of the `/lol/league/v4/entries/by-puuid` response. -/
structure RankEntry where
  queueType : String
  tier : String
  rank : String
  leaguePoints : Int
  wins : Int
  losses : Int
deriving DecidableEq

/-- The optional `/lol/spectator/v5/active-games` response. -/
structure LiveResp where
  gameId : Int
deriving DecidableEq

/-- One participant of a match-detail response (`m.info.participants`). -/
structure Participant where
  puuid : String
  win : Bool
  championName : String
  kills : Int
  deaths : Int
  assists : Int
deriving DecidableEq

/-- The match-detail response (`m.info`). -/
structure MatchDetail where
  participants : List Participant
  gameStartTimestamp : Int
deriving DecidableEq

/-- One roster entry of the `PLAYERS` constant (`{ name, tag }`). -/
structure Seed where
  name : String
  tag : String
deriving DecidableEq

/-- The upstream environment for one cycle: what each Riot endpoint would
answer. Required calls (`riotGet`) may fail with an error; the optional
live-game call (`riotGetOpt`) normalizes every failure to `none`. `now` is
the cycle's timestamp. -/
structure Env where
  now : Int
  account : Seed → Except Unit AccountResp
  summoner : String → Except Unit SummonerResp
  rank : String → Except Unit (List RankEntry)
  live : String → Option LiveResp
  matchIds : String → Except Unit (List String)
  matchDetail : String → Except Unit MatchDetail

/-- The `PLAYERS` roster constant of `snapshot.js`. -/
def PLAYERS : List Seed :=
  [⟨"DDR4 2x16GB 3600", "pepi"⟩, ⟨"LaDragonaTragona", "AWA"⟩,
   ⟨"lil yowi", "TS13"⟩, ⟨"lil aitor", "EUW"⟩, ⟨"comehigados", "EUW"⟩,
   ⟨"pepi", "346"⟩, ⟨"PapeldeCulo", "EUW"⟩, ⟨"FinElGitΔno", "695"⟩,
   ⟨"Xus17zgZ", "EUW"⟩, ⟨"Si hombre", "TMAWA"⟩, ⟨"Epst3inBunny", "meow"⟩,
   ⟨"her D is bigger", "cnc"⟩]

/-- The `MAX_MATCHES` constant. -/
def MAX_MATCHES : Nat := 10

/-- Supabase `upsert` on `players` with `onConflict: "puuid"`:
replace the row with the same key, else insert. -/
def upsertPlayer (rows : List PlayerRow) (r : PlayerRow) : List PlayerRow :=
  if rows.any (fun x => x.puuid == r.puuid) then
    rows.map (fun x => if x.puuid == r.puuid then r else x)
  else rows ++ [r]

/-- Supabase `upsert` on `matches` with `onConflict: "match_id"`. -/
def upsertMatch (rows : List MatchRow) (r : MatchRow) : List MatchRow :=
  if rows.any (fun x => x.match_id == r.match_id) then
    rows.map (fun x => if x.match_id == r.match_id then r else x)
  else rows ++ [r]

/-- Supabase `upsert` on `player_matches` with `onConflict: "puuid,match_id"`. -/
def upsertPM (rows : List PMRow) (r : PMRow) : List PMRow :=
  if rows.any (fun x => x.puuid == r.puuid && x.match_id == r.match_id) then
    rows.map (fun x => if x.puuid == r.puuid && x.match_id == r.match_id then r else x)
  else rows ++ [r]

/-- JavaScript object-property assignment `obj[k] = v` on an object
modelled as an insertion-ordered association list. -/
def objSet {α : Type} (obj : List (String × α)) (k : String) (v : α) :
    List (String × α) :=
  if obj.any (fun e => e.1 == k) then
    obj.map (fun e => if e.1 == k then (k, v) else e)
  else obj ++ [(k, v)]

/-- The solo-queue entry: `rankData.find(r => r.queueType === "RANKED_SOLO_5x5")`. -/
def soloOf (rankData : List RankEntry) : Option RankEntry :=
  rankData.find? (fun r => r.queueType == "RANKED_SOLO_5x5")

/-- The JS expression `solo?.tier || null`: absent entry or empty tier
string become `null`. -/
def tierOf (solo : Option RankEntry) : Option String :=
  match solo with
  | none => none
  | some e => if e.tier = "" then none else some e.tier

/-- The JS expression `solo?.rank || null`. -/
def rankOf (solo : Option RankEntry) : Option String :=
  match solo with
  | none => none
  | some e => if e.rank = "" then none else some e.rank

/-- The JS expression `solo?.leaguePoints ?? 0`. -/
def lpOf (solo : Option RankEntry) : Int :=
  match solo with
  | none => 0
  | some e => e.leaguePoints

/-- The JS expression `solo?.wins || 0` (`|| 0` is the identity on the
integer `wins`). -/
def winsOf (solo : Option RankEntry) : Int :=
  match solo with
  | none => 0
  | some e => e.wins

/-- The JS expression `solo?.losses || 0`. -/
def lossesOf (solo : Option RankEntry) : Int :=
  match solo with
  | none => 0
  | some e => e.losses

/-- The `playerRow` object built in `buildSnapshot` (lines 194-207). The
flag `in_game` is `!!(live?.gameId)`, false for an absent response or a
falsy (zero) game id. -/
def mkPlayerRow (acc : AccountResp) (sum : SummonerResp)
    (solo : Option RankEntry) (live : Option LiveResp) (now : Int) : PlayerRow :=
  { puuid := acc.puuid
    game_name := acc.gameName
    tag_line := acc.tagLine
    profile_icon_id := sum.profileIconId
    summoner_level := sum.summonerLevel
    tier := tierOf solo
    rank := rankOf solo
    lp := lpOf solo
    wins := winsOf solo
    losses := lossesOf solo
    in_game := match live with | none => false | some l => l.gameId != 0
    updated_at := now }

/-- The prior score used in the history-gating comparison:
`prev ? rankScore(prev.tier, prev.rank, prev.lp) : -2`. -/
def prevScoreOf (prev : Option PlayerRow) : Int :=
  match prev with
  | none => -2
  | some p => rankScore p.tier p.rank p.lp

/-- The `rank_history` insert payload. -/
def mkHistoryRow (puuid : String) (row : PlayerRow) (score now : Int) : HistoryRow :=
  { puuid := puuid, tier := row.tier, rank := row.rank, lp := row.lp
    wins := row.wins, losses := row.losses, score := score, recorded_at := now }

/-- The `data` object of a cached match: the `reduce` over
`m.info.participants` keying each participant's stats by puuid. -/
def matchDataOf (m : MatchDetail) : List (String × PartStats) :=
  m.participants.foldl
    (fun obj part =>
      objSet obj part.puuid
        ⟨part.win, part.championName, part.kills, part.deaths, part.assists⟩)
    []

/-- Upstream calls the engine issues that the claims count: the per-entity
match-id list call and the per-match detail call. An event is recorded
when the call is issued, whether or not it succeeds. -/
inductive FetchEvent where
  | listFetch (puuid : String)
  | detailFetch (matchId : String)
deriving DecidableEq

/-- State threaded through one cycle: the store, the `trackedPuuids` set
(insertion-ordered), and the log of counted upstream calls. -/
structure CycleSt where
  db : DB
  tracked : List String
  events : List FetchEvent
deriving DecidableEq

/-- The JS `Set.add` on `trackedPuuids`. -/
def trackedAdd (tracked : List String) (pu : String) : List String :=
  if tracked.contains pu then tracked else tracked ++ [pu]

/-- One iteration of the participant loop (lines 264-276): a
`player_matches` upsert for a participant currently in `trackedPuuids`,
otherwise no effect. -/
def partUpsert (tracked : List String) (matchId : String) (gameStart : Int)
    (db : DB) (part : Participant) : DB :=
  if tracked.contains part.puuid then
    let row : PMRow :=
      ⟨part.puuid, matchId, part.win, part.championName,
       part.kills, part.deaths, part.assists, gameStart⟩
    { db with player_matches := upsertPM db.player_matches row }
  else db

/-- The participant loop storing a result for every tracked player found
in the match. -/
def storeParticipants (tracked : List String) (matchId : String)
    (gameStart : Int) (db : DB) (parts : List Participant) : DB :=
  parts.foldl (partUpsert tracked matchId gameStart) db

/-- The body of the per-match loop (lines 247-281): skip ids already in
the `knownSet` computed before the loop; otherwise issue the detail fetch,
and on success cache the match and upsert a `player_matches` row for every
participant currently in `trackedPuuids`. A detail failure is caught at
the match boundary and the match is simply skipped. -/
def matchStep (env : Env) (tracked : List String) (knownIds : List String)
    (acc : DB × List FetchEvent) (matchId : String) : DB × List FetchEvent :=
  if knownIds.contains matchId then acc
  else
    let db := acc.1
    let evs := acc.2 ++ [FetchEvent.detailFetch matchId]
    match env.matchDetail matchId with
    | .error _ => (db, evs)
    | .ok m =>
        let db := { db with
          matches' := upsertMatch db.matches' ⟨matchId, env.now, matchDataOf m⟩ }
        (storeParticipants tracked matchId m.gameStartTimestamp db m.participants,
          evs)

/-- One iteration of the per-player loop of `buildSnapshot` (lines
168-286). Any `riotGet` failure of a required call throws to the
per-entity `catch`, which only logs: processing of this entity stops and
the cycle moves on. `prevBy` is the previous-players lookup computed once
from the snapshot-start store. -/
def processPlayer (env : Env) (prevBy : String → Option PlayerRow)
    (st : CycleSt) (seed : Seed) : CycleSt :=
  match env.account seed with
  | .error _ => st
  | .ok acc =>
    let st := { st with tracked := trackedAdd st.tracked acc.puuid }
    match env.summoner acc.puuid with
    | .error _ => st
    | .ok sum =>
      match env.rank acc.puuid with
      | .error _ => st
      | .ok rankData =>
        let live := env.live acc.puuid
        let solo := soloOf rankData
        let prev := prevBy acc.puuid
        let playerRow := mkPlayerRow acc sum solo live env.now
        let db := { st.db with players := upsertPlayer st.db.players playerRow }
        let newScore := rankScore playerRow.tier playerRow.rank playerRow.lp
        let prevScore := prevScoreOf prev
        let db :=
          if newScore ≠ prevScore then
            { db with rank_history :=
                db.rank_history ++ [mkHistoryRow acc.puuid playerRow newScore env.now] }
          else db
        let prevWins := match prev with | none => playerRow.wins | some p => p.wins
        let prevLosses := match prev with | none => playerRow.losses | some p => p.losses
        let gamesPlayed := (playerRow.wins + playerRow.losses) - (prevWins + prevLosses)
        if gamesPlayed > 0 then
          let evs := st.events ++ [FetchEvent.listFetch acc.puuid]
          match env.matchIds acc.puuid with
          | .error _ => { db := db, tracked := st.tracked, events := evs }
          | .ok matchIds =>
              let knownIds :=
                (db.matches'.map (fun r => r.match_id)).filter
                  (fun mid => matchIds.contains mid)
              let res := matchIds.foldl (matchStep env st.tracked knownIds) (db, evs)
              { db := res.1, tracked := st.tracked, events := res.2 }
        else { db := db, tracked := st.tracked, events := st.events }

/-- The fold of `processPlayer` over a roster, from a given cycle state. -/
def runRoster (env : Env) (prevBy : String → Option PlayerRow)
    (st : CycleSt) (roster : List Seed) : CycleSt :=
  roster.foldl (processPlayer env prevBy) st

/-- The previous-players lookup `prevByPuuid` built once from the
snapshot-start store. -/
def prevFnOf (db0 : DB) : String → Option PlayerRow :=
  fun pu => db0.players.find? (fun p => p.puuid == pu)

/-- The write phase of `buildSnapshot` (lines 157-286): load previous
state once, then process every roster entry in order. -/
def buildSnapshotCycle (env : Env) (db0 : DB) (roster : List Seed) : CycleSt :=
  runRoster env (prevFnOf db0) ⟨db0, [], []⟩ roster

/-!
Counters used to state the claims: history rows per entity,
`player_matches` rows per match, and issued upstream calls.
-/

/-- Number of `rank_history` rows for one entity. -/
def histCount (db : DB) (pu : String) : Nat :=
  (db.rank_history.filter (fun h => h.puuid == pu)).length

/-- Number of `player_matches` rows for one match id. -/
def pmCount (db : DB) (mid : String) : Nat :=
  (db.player_matches.filter (fun r => r.match_id == mid)).length

/-- Number of match-id list calls issued for one entity. -/
def listFetchCount (evs : List FetchEvent) (pu : String) : Nat :=
  (evs.filter (fun e => e == FetchEvent.listFetch pu)).length

/-- Number of match-detail calls issued for one match id. -/
def detailFetchCount (evs : List FetchEvent) (mid : String) : Nat :=
  (evs.filter (fun e => e == FetchEvent.detailFetch mid)).length

theorem partUpsert_players (tr : List String) (mid : String) (g : Int)
    (db : DB) (p : Participant) :
    (partUpsert tr mid g db p).players = db.players := by
  unfold partUpsert; split <;> rfl

theorem partUpsert_rank_history (tr : List String) (mid : String) (g : Int)
    (db : DB) (p : Participant) :
    (partUpsert tr mid g db p).rank_history = db.rank_history := by
  unfold partUpsert; split <;> rfl

theorem storeParticipants_players (tr : List String) (mid : String) (g : Int)
    (ps : List Participant) (db : DB) :
    (storeParticipants tr mid g db ps).players = db.players := by
  induction ps generalizing db with
  | nil => rfl
  | cons p ps ih =>
      show (storeParticipants tr mid g (partUpsert tr mid g db p) ps).players = _
      rw [ih, partUpsert_players]

theorem storeParticipants_rank_history (tr : List String) (mid : String)
    (g : Int) (ps : List Participant) (db : DB) :
    (storeParticipants tr mid g db ps).rank_history = db.rank_history := by
  induction ps generalizing db with
  | nil => rfl
  | cons p ps ih =>
      show (storeParticipants tr mid g (partUpsert tr mid g db p) ps).rank_history = _
      rw [ih, partUpsert_rank_history]

theorem matchStep_players (env : Env) (tr kn : List String)
    (acc : DB × List FetchEvent) (mid : String) :
    ((matchStep env tr kn acc mid).1).players = acc.1.players := by
  unfold matchStep
  split
  · rfl
  · cases env.matchDetail mid with
    | error e => rfl
    | ok m => exact storeParticipants_players ..

theorem matchStep_rank_history (env : Env) (tr kn : List String)
    (acc : DB × List FetchEvent) (mid : String) :
    ((matchStep env tr kn acc mid).1).rank_history = acc.1.rank_history := by
  unfold matchStep
  split
  · rfl
  · cases env.matchDetail mid with
    | error e => rfl
    | ok m => exact storeParticipants_rank_history ..

theorem matchStep_listFetchCount (env : Env) (tr kn : List String)
    (acc : DB × List FetchEvent) (mid pu : String) :
    listFetchCount (matchStep env tr kn acc mid).2 pu
      = listFetchCount acc.2 pu := by
  unfold matchStep
  split
  · rfl
  · cases env.matchDetail mid with
    | error e => simp [listFetchCount, List.filter_append]
    | ok m => simp [listFetchCount, List.filter_append]

theorem matchFold_players (env : Env) (tr kn : List String)
    (mids : List String) (acc : DB × List FetchEvent) :
    ((mids.foldl (matchStep env tr kn) acc).1).players = acc.1.players := by
  induction mids generalizing acc with
  | nil => rfl
  | cons mid mids ih => rw [List.foldl_cons, ih, matchStep_players]

theorem matchFold_rank_history (env : Env) (tr kn : List String)
    (mids : List String) (acc : DB × List FetchEvent) :
    ((mids.foldl (matchStep env tr kn) acc).1).rank_history
      = acc.1.rank_history := by
  induction mids generalizing acc with
  | nil => rfl
  | cons mid mids ih => rw [List.foldl_cons, ih, matchStep_rank_history]

theorem matchFold_listFetchCount (env : Env) (tr kn : List String)
    (mids : List String) (acc : DB × List FetchEvent) (pu : String) :
    listFetchCount ((mids.foldl (matchStep env tr kn) acc)).2 pu
      = listFetchCount acc.2 pu := by
  induction mids generalizing acc with
  | nil => rfl
  | cons mid mids ih => rw [List.foldl_cons, ih, matchStep_listFetchCount]

theorem listFetchCount_append_list (evs : List FetchEvent) (pu : String) :
    listFetchCount (evs ++ [FetchEvent.listFetch pu]) pu
      = listFetchCount evs pu + 1 := by
  simp [listFetchCount, List.filter_append]

/-- Characterization of the `rank_history` effect of one successfully
resolved entity: exactly the conditional append performed at lines
211-228 of `snapshot.js`, whatever happens in the match section. -/
theorem processPlayer_hist (env : Env) (prevBy : String → Option PlayerRow)
    (st : CycleSt) (seed : Seed) (acc : AccountResp) (sum : SummonerResp)
    (rd : List RankEntry)
    (ha : env.account seed = .ok acc)
    (hs : env.summoner acc.puuid = .ok sum)
    (hr : env.rank acc.puuid = .ok rd) :
    (processPlayer env prevBy st seed).db.rank_history
      = st.db.rank_history ++
        (if rankScore (tierOf (soloOf rd)) (rankOf (soloOf rd)) (lpOf (soloOf rd))
            = prevScoreOf (prevBy acc.puuid)
         then []
         else [mkHistoryRow acc.puuid
                 (mkPlayerRow acc sum (soloOf rd) (env.live acc.puuid) env.now)
                 (rankScore (tierOf (soloOf rd)) (rankOf (soloOf rd))
                   (lpOf (soloOf rd)))
                 env.now]) := by
  simp only [processPlayer, ha, hs, hr, mkPlayerRow]
  split
  · cases hmi : env.matchIds acc.puuid with
    | error e =>
        simp only [hmi]
        split_ifs with h1 h2 <;> simp_all
    | ok mids =>
        simp only [hmi, matchFold_rank_history]
        split_ifs with h1 h2 <;> simp_all
  · split_ifs with h1 h2 <;> simp_all

/-- A score produced by `rankScore` on a tier that is `null` or a key of
`TIER_ORDER`, with nonnegative points, is `-1` or nonnegative — never the
first-observation placeholder `-2`. -/
theorem rankScore_ne_neg2 (tier rank : Option String) (lp : Int)
    (htier : ∀ t, tier = some t → TIER_ORDER t ≠ none) (hlp : 0 ≤ lp) :
    rankScore tier rank lp ≠ -2 := by
  match tier with
  | none => simp [rankScore]
  | some t =>
      cases ht : TIER_ORDER t with
      | none => exact absurd ht (htier t rfl)
      | some it =>
          have hrange := TIER_ORDER_range t it ht
          have hrnn := rankIdxVal_nonneg rank
          rw [rankScore_valid_eq t it ht rank lp]
          omega

/-- C3: for an entity with a prior persisted record whose required calls
succeed, the cycle appends no `rank_history` row when the newly computed
score equals the prior score, and exactly one row when it differs. -/
theorem c3_history_gating (env : Env) (prevBy : String → Option PlayerRow)
    (st : CycleSt) (seed : Seed) (acc : AccountResp) (sum : SummonerResp)
    (rd : List RankEntry) (pr : PlayerRow)
    (ha : env.account seed = .ok acc)
    (hs : env.summoner acc.puuid = .ok sum)
    (hr : env.rank acc.puuid = .ok rd)
    (hp : prevBy acc.puuid = some pr) :
    histCount (processPlayer env prevBy st seed).db acc.puuid
      = histCount st.db acc.puuid
        + (if rankScore (tierOf (soloOf rd)) (rankOf (soloOf rd)) (lpOf (soloOf rd))
              = rankScore pr.tier pr.rank pr.lp
           then 0 else 1) := by
  unfold histCount
  rw [processPlayer_hist env prevBy st seed acc sum rd ha hs hr, hp,
    List.filter_append, List.length_append]
  simp only [prevScoreOf]
  split_ifs with h
  · simp
  · simp [mkHistoryRow]

/-- C10: for an entity with no previously persisted record whose required
calls succeed, whose resolved tier is `null` or a valid tier name, and
whose points are nonnegative, the cycle always appends exactly one
`rank_history` row — the `-2` placeholder differs from every score
`rankScore` produces on such inputs, including the unranked `-1`. -/
theorem c10_first_history (env : Env) (prevBy : String → Option PlayerRow)
    (st : CycleSt) (seed : Seed) (acc : AccountResp) (sum : SummonerResp)
    (rd : List RankEntry)
    (ha : env.account seed = .ok acc)
    (hs : env.summoner acc.puuid = .ok sum)
    (hr : env.rank acc.puuid = .ok rd)
    (hp : prevBy acc.puuid = none)
    (htier : ∀ t, tierOf (soloOf rd) = some t → TIER_ORDER t ≠ none)
    (hlp : 0 ≤ lpOf (soloOf rd)) :
    histCount (processPlayer env prevBy st seed).db acc.puuid
      = histCount st.db acc.puuid + 1 := by
  unfold histCount
  rw [processPlayer_hist env prevBy st seed acc sum rd ha hs hr, hp,
    List.filter_append, List.length_append]
  have hne := rankScore_ne_neg2 (tierOf (soloOf rd)) (rankOf (soloOf rd))
    (lpOf (soloOf rd)) htier hlp
  rw [if_neg (by simpa [prevScoreOf] using hne)]
  simp [mkHistoryRow]

/-- C4: for an entity with a prior persisted record whose required calls
succeed, the Fetch Planner issues the match-id list call exactly once when
the newly fetched wins plus losses strictly exceed the previously
persisted wins plus losses, and not at all otherwise. -/
theorem c4_fetch_plan (env : Env) (prevBy : String → Option PlayerRow)
    (st : CycleSt) (seed : Seed) (acc : AccountResp) (sum : SummonerResp)
    (rd : List RankEntry) (pr : PlayerRow)
    (ha : env.account seed = .ok acc)
    (hs : env.summoner acc.puuid = .ok sum)
    (hr : env.rank acc.puuid = .ok rd)
    (hp : prevBy acc.puuid = some pr) :
    listFetchCount (processPlayer env prevBy st seed).events acc.puuid
      = listFetchCount st.events acc.puuid
        + (if pr.wins + pr.losses < winsOf (soloOf rd) + lossesOf (soloOf rd)
           then 1 else 0) := by
  simp only [processPlayer, ha, hs, hr, hp, mkPlayerRow]
  by_cases hgt : winsOf (soloOf rd) + lossesOf (soloOf rd) - (pr.wins + pr.losses) > 0
  · rw [if_pos hgt,
      if_pos (show pr.wins + pr.losses < winsOf (soloOf rd) + lossesOf (soloOf rd)
        by omega)]
    cases hmi : env.matchIds acc.puuid with
    | error e =>
        simp only [hmi]
        exact listFetchCount_append_list st.events acc.puuid
    | ok mids =>
        simp only [hmi]
        exact (matchFold_listFetchCount env _ _ mids _ acc.puuid).trans
          (listFetchCount_append_list st.events acc.puuid)
  · rw [if_neg hgt,
      if_neg (show ¬(pr.wins + pr.losses < winsOf (soloOf rd) + lossesOf (soloOf rd))
        by omega)]
    simp

/-- Empty store and fresh cycle state used by concrete witnesses. -/
def st0 : CycleSt := ⟨⟨[], [], [], []⟩, [], []⟩

/-- A previously persisted row: Gold IV, 10 LP, 5 wins, 5 losses. -/
def prW : PlayerRow :=
  ⟨"PW", "W", "TW", 1, 30, some "GOLD", some "IV", 10, 5, 5, false, 0⟩

/-- Upstream answers for a ranked entity: Gold IV, 25 LP, 6 wins, 5
losses, empty match list. -/
def envW3 : Env :=
  { now := 1
    account := fun _ => .ok ⟨"PW", "W", "TW"⟩
    summoner := fun _ => .ok ⟨1, 30⟩
    rank := fun _ => .ok [⟨"RANKED_SOLO_5x5", "GOLD", "IV", 25, 6, 5⟩]
    live := fun _ => none
    matchIds := fun _ => .ok []
    matchDetail := fun _ => .error () }

/-- C3 witness: with the prior row at score 30010 and the new data at
score 30025, exactly one history row is appended. -/
theorem c3_history_gating_witness :
    histCount (processPlayer envW3 (fun _ => some prW) st0 ⟨"W", "TW"⟩).db "PW"
      = 1 := by
  have h := c3_history_gating envW3 (fun _ => some prW) st0 ⟨"W", "TW"⟩
    ⟨"PW", "W", "TW"⟩ ⟨1, 30⟩ [⟨"RANKED_SOLO_5x5", "GOLD", "IV", 25, 6, 5⟩] prW
    rfl rfl rfl rfl
  rw [h]
  decide

/-- C4 witness: the prior counters sum to 10, the new ones to 11, so the
match-id list is requested exactly once. -/
theorem c4_fetch_plan_witness :
    listFetchCount (processPlayer envW3 (fun _ => some prW) st0 ⟨"W", "TW"⟩).events
      "PW" = 1 := by
  have h := c4_fetch_plan envW3 (fun _ => some prW) st0 ⟨"W", "TW"⟩
    ⟨"PW", "W", "TW"⟩ ⟨1, 30⟩ [⟨"RANKED_SOLO_5x5", "GOLD", "IV", 25, 6, 5⟩] prW
    rfl rfl rfl rfl
  rw [h]
  decide

/-- Upstream answers for an entity resolving as unranked (no solo-queue
entry at all). -/
def envW10 : Env :=
  { now := 1
    account := fun _ => .ok ⟨"PW", "W", "TW"⟩
    summoner := fun _ => .ok ⟨1, 30⟩
    rank := fun _ => .ok []
    live := fun _ => none
    matchIds := fun _ => .ok []
    matchDetail := fun _ => .error () }

/-- C10 witness: a first-ever observation that resolves as unranked
(score `-1`, placeholder `-2`) still appends exactly one history row. -/
theorem c10_first_history_witness :
    histCount (processPlayer envW10 (fun _ => none) st0 ⟨"W", "TW"⟩).db "PW"
      = 1 := by
  have h := c10_first_history envW10 (fun _ => none) st0 ⟨"W", "TW"⟩
    ⟨"PW", "W", "TW"⟩ ⟨1, 30⟩ [] rfl rfl rfl rfl
    (fun t ht => by cases ht) (by decide)
  rw [h]
  decide

/-- C7 (amended): a failure of identity resolution is caught at the
entity boundary: the entity contributes no change at all (store, tracked
set and call log are untouched, and no placeholder record exists in this
variant), and the cycle continues exactly as if the entity were absent
from the roster. -/
theorem c7_entity_failure_amended (env : Env) (prevBy : String → Option PlayerRow)
    (st : CycleSt) (seed : Seed) (rest : List Seed)
    (ha : env.account seed = .error ()) :
    processPlayer env prevBy st seed = st ∧
    runRoster env prevBy st (seed :: rest) = runRoster env prevBy st rest := by
  have h1 : processPlayer env prevBy st seed = st := by
    simp [processPlayer, ha]
  exact ⟨h1, by simp [runRoster, List.foldl_cons, h1]⟩

/-- An upstream where every required call fails. -/
def envAllFail : Env :=
  { now := 0
    account := fun _ => .error ()
    summoner := fun _ => .error ()
    rank := fun _ => .error ()
    live := fun _ => none
    matchIds := fun _ => .error ()
    matchDetail := fun _ => .error () }

/-- C7 witness: the amended theorem applied to an entity whose identity
resolution fails on an empty store. -/
theorem c7_entity_failure_witness :
    processPlayer envAllFail (fun _ => none) st0 ⟨"X", "TX"⟩ = st0 ∧
    runRoster envAllFail (fun _ => none) st0 [⟨"X", "TX"⟩]
      = runRoster envAllFail (fun _ => none) st0 [] :=
  c7_entity_failure_amended envAllFail (fun _ => none) st0 ⟨"X", "TX"⟩ [] rfl

/-- A previously persisted row for an entity whose match-list call will
fail mid-processing. -/
def prC7 : PlayerRow :=
  ⟨"PE", "E", "TE", 1, 30, some "GOLD", some "IV", 10, 5, 5, false, 0⟩

/-- Store before the failing cycle. -/
def dbC7 : DB := ⟨[prC7], [], [], []⟩

/-- Upstream where the entity's identity, summoner and rank calls succeed
(with one new game played) but the required match-id list call fails. -/
def envC7 : Env :=
  { now := 1
    account := fun _ => .ok ⟨"PE", "E", "TE"⟩
    summoner := fun _ => .ok ⟨1, 30⟩
    rank := fun _ => .ok [⟨"RANKED_SOLO_5x5", "GOLD", "IV", 25, 6, 5⟩]
    live := fun _ => none
    matchIds := fun _ => .error ()
    matchDetail := fun _ => .error () }

/-- C7 counterexample: an entity whose resolution fails (its required
match-id list call throws) does *not* leave its previously persisted
state untouched — its `players` row was already replaced and a history
row appended before the failure — and the `snapshot.js` catch produces no
placeholder record. -/
theorem c7_counterexample :
    envC7.matchIds "PE" = .error () ∧
    (buildSnapshotCycle envC7 dbC7 [⟨"E", "TE"⟩]).db.players ≠ dbC7.players ∧
    (buildSnapshotCycle envC7 dbC7 [⟨"E", "TE"⟩]).db.rank_history ≠ [] := by
  refine ⟨rfl, ?_, ?_⟩ <;> decide

/-- Previously persisted row for tracked entity A (5 wins, 5 losses). -/
def rowA2 : PlayerRow :=
  ⟨"PA", "A", "TA", 1, 30, some "GOLD", some "IV", 10, 5, 5, false, 0⟩

/-- Previously persisted row for tracked entity B (5 wins, 5 losses). -/
def rowB2 : PlayerRow :=
  ⟨"PB", "B", "TB", 1, 30, some "GOLD", some "III", 20, 5, 5, false, 0⟩

/-- Store before the cycle in which A and B share match `M1`. -/
def dbC2 : DB := ⟨[rowA2, rowB2], [], [], []⟩

/-- Upstream for the shared-match scenario: both entities have played one
new game, both match-id lists return `["M1"]`, and the detail of `M1`
lists both tracked entities as participants. -/
def envC2 : Env :=
  { now := 1
    account := fun s =>
      if s.name = "A" then .ok ⟨"PA", "A", "TA"⟩ else .ok ⟨"PB", "B", "TB"⟩
    summoner := fun _ => .ok ⟨1, 30⟩
    rank := fun pu =>
      if pu = "PA" then .ok [⟨"RANKED_SOLO_5x5", "GOLD", "IV", 12, 6, 5⟩]
      else .ok [⟨"RANKED_SOLO_5x5", "GOLD", "III", 22, 6, 5⟩]
    live := fun _ => none
    matchIds := fun _ => .ok ["M1"]
    matchDetail := fun _ =>
      .ok ⟨[⟨"PA", true, "Ahri", 5, 2, 7⟩, ⟨"PB", false, "Zed", 3, 4, 1⟩], 100⟩ }

/-- C2 evaluated at the shared-match input: the detail of `M1` is fetched
exactly once system-wide, but only *one* `player_matches` row results —
entity B, processed second, is absent from `trackedPuuids` when the match
is stored during A's turn, and B later skips `M1` as already known, so
B's participation row is never written (the claim and the spec require
exactly two rows). -/
theorem c2_shared_match_eval :
    detailFetchCount
        (buildSnapshotCycle envC2 dbC2 [⟨"A", "TA"⟩, ⟨"B", "TB"⟩]).events "M1" = 1 ∧
    pmCount (buildSnapshotCycle envC2 dbC2 [⟨"A", "TA"⟩, ⟨"B", "TB"⟩]).db "M1" = 1 ∧
    ((buildSnapshotCycle envC2 dbC2 [⟨"A", "TA"⟩, ⟨"B", "TB"⟩]).db.player_matches.filter
        (fun r => r.puuid == "PB")) = [] ∧
    ((buildSnapshotCycle envC2 dbC2 [⟨"A", "TA"⟩, ⟨"B", "TB"⟩]).db.matches'.map
        (fun r => r.match_id)) = ["M1"] := by
  refine ⟨?_, ?_, ?_, ?_⟩ <;> decide

/-!
Milestone detection, from the variant in `src/unnamed/part_001`
(lines 278-339): per-entity promotion/demotion and the cross-entity
surpassed scan.
-/

/-- Kinds of single-actor milestone events. -/
inductive MilestoneKind where
  | promoted
  | demoted
deriving DecidableEq

/-- The tier-level bucket `Math.floor(score / 10000)` (floor division,
also for negative scores). -/
def tierBucket (score : Int) : Int := Int.fdiv score 10000

/-- Embedding of `detectMilestones` (part_001 lines 278-300), as the
event it inserts, if any. A `prevScore` of `undefined` (here `none`)
or equal to `newScore` emits nothing; the `?? -10001` default inside the
bucket computation is dead code, since `prevScore` is a number there.
Promotion requires `newScore > 0`, demotion `prevScore > 0`. -/
def detectMilestones (prevScore : Option Int) (newScore : Int) :
    Option MilestoneKind :=
  match prevScore with
  | none => none
  | some prev =>
      if prev = newScore then none
      else
        let prevTierScore := tierBucket prev
        let newTierScore := tierBucket newScore
        if prevTierScore < newTierScore ∧ 0 < newScore then
          some MilestoneKind.promoted
        else if newTierScore < prevTierScore ∧ 0 < prev then
          some MilestoneKind.demoted
        else none

/-- C5 counterexample: a known unranked entity (pre score `-1`, the
sentinel) reaching Iron IV 0 LP (score `0`, a ranked score, in a strictly
higher tier bucket) emits *no* `promoted` event, because the code tests
`newScore > 0` rather than "ranked" — refuting the claim that a bucket
increase to any ranked post score emits `promoted`. -/
theorem c5_counterexample :
    rankScore (some "IRON") (some "IV") 0 = 0 ∧
    rankScore (some "IRON") (some "IV") 0 ≠ rankScore none none 0 ∧
    tierBucket (rankScore none none 0)
      < tierBucket (rankScore (some "IRON") (some "IV") 0) ∧
    detectMilestones (some (rankScore none none 0))
      (rankScore (some "IRON") (some "IV") 0) = none := by
  decide

/-- C5 (amended): with "post score is ranked" strengthened to "post score
is strictly positive" (and "pre score was ranked" to "pre score strictly
positive"), the per-entity pass is characterized exactly: nothing on a
first observation, `promoted` iff the bucket strictly rose and the post
score is positive, `demoted` iff the bucket strictly fell and the pre
score is positive, and nothing when the bucket is unchanged. -/
theorem c5_milestones_amended (prev newS : Int) :
    detectMilestones none newS = none ∧
    (detectMilestones (some prev) newS = some MilestoneKind.promoted
      ↔ tierBucket prev < tierBucket newS ∧ 0 < newS) ∧
    (detectMilestones (some prev) newS = some MilestoneKind.demoted
      ↔ tierBucket newS < tierBucket prev ∧ 0 < prev) ∧
    (tierBucket prev = tierBucket newS → detectMilestones (some prev) newS = none) := by
  unfold detectMilestones
  dsimp only
  refine ⟨rfl, ?_, ?_, ?_⟩ <;>
    · split_ifs with h1 h2 h3 <;> simp_all <;> omega

/-- C5 witness: the amended characterization applied to the spec's
example, Gold I 50 LP (score 33050) to Platinum IV 5 LP (score 40005) —
one bucket up, so exactly one `promoted`. -/
theorem c5_milestones_witness :
    detectMilestones none 40005 = none ∧
    (detectMilestones (some 33050) 40005 = some MilestoneKind.promoted
      ↔ tierBucket 33050 < tierBucket 40005 ∧ (0 : Int) < 40005) ∧
    (detectMilestones (some 33050) 40005 = some MilestoneKind.demoted
      ↔ tierBucket 40005 < tierBucket 33050 ∧ (0 : Int) < 33050) ∧
    (tierBucket 33050 = tierBucket 40005 →
      detectMilestones (some 33050) 40005 = none) :=
  c5_milestones_amended 33050 40005

/-- One row of the `players` select made by `detectSurpassedMilestones`
(`puuid, game_name, tier, rank, lp`). -/
structure CurPlayer where
  puuid : String
  game_name : String
  tier : Option String
  rank : Option String
  lp : Int
deriving DecidableEq

/-- JavaScript object property read `obj[k]`, `none` when absent. -/
def lookupObj {α : Type} (m : List (String × α)) (k : String) : Option α :=
  (m.find? (fun e => e.1 == k)).map (fun e => e.2)

/-- The `newScores` object: `newScores[p.puuid] = rankScore(p.tier,
p.rank, p.lp)` over the current players. -/
def newScoresOf (cur : List CurPlayer) : List (String × Int) :=
  cur.foldl (fun m p => objSet m p.puuid (rankScore p.tier p.rank p.lp)) []

/-- One `surpassed` milestone insert (actor, target and both scores at
detection time). -/
structure SurpassedEvent where
  actor : String
  target : String
  actor_score : Int
  target_score : Int
deriving DecidableEq

/-- The body of the inner `for (const b of puuids)` loop of
`detectSurpassedMilestones` (part_001 lines 311-328): skip `a === b`,
default absent scores to `-1`, and emit when `prevA <= prevB && newA >
newB && newA > 0`. -/
def surpassedCheck (prevScores newScores : List (String × Int)) (a : String)
    (out : List SurpassedEvent) (b : String) : List SurpassedEvent :=
  if a = b then out
  else
    let prevA := (lookupObj prevScores a).getD (-1)
    let prevB := (lookupObj prevScores b).getD (-1)
    let newA := (lookupObj newScores a).getD (-1)
    let newB := (lookupObj newScores b).getD (-1)
    if prevA ≤ prevB ∧ newB < newA ∧ 0 < newA then out ++ [⟨a, b, newA, newB⟩]
    else out

/-- The inner loop over all `puuids` for a fixed actor `a`. -/
def surpassedScanB (prevScores newScores : List (String × Int))
    (puuids : List String) (out : List SurpassedEvent) (a : String) :
    List SurpassedEvent :=
  puuids.foldl (surpassedCheck prevScores newScores a) out

/-- Embedding of `detectSurpassedMilestones` (part_001 lines 302-330):
build the `newScores` object from the current players table, then scan
every ordered pair of its keys, collecting the inserted events in order. -/
def detectSurpassedMilestones (prevScores : List (String × Int))
    (cur : List CurPlayer) : List SurpassedEvent :=
  let newScores := newScoresOf cur
  let puuids := newScores.map (fun e => e.1)
  puuids.foldl (surpassedScanB prevScores newScores puuids) []

/-- Number of emitted `surpassed` events with a given actor and target. -/
def surpassedCount (evs : List SurpassedEvent) (a b : String) : Nat :=
  (evs.filter (fun e => e.actor == a && e.target == b)).length

/-- The condition under which the scan emits `surpassed(a, b)`. -/
def emitP (ps ns : List (String × Int)) (a b : String) : Prop :=
  a ≠ b ∧ (lookupObj ps a).getD (-1) ≤ (lookupObj ps b).getD (-1) ∧
    (lookupObj ns b).getD (-1) < (lookupObj ns a).getD (-1) ∧
    0 < (lookupObj ns a).getD (-1)

instance (ps ns : List (String × Int)) (a b : String) :
    Decidable (emitP ps ns a b) := by
  unfold emitP; infer_instance

theorem surpassedCount_append (out : List SurpassedEvent) (e : SurpassedEvent)
    (a b : String) :
    surpassedCount (out ++ [e]) a b
      = surpassedCount out a b
        + (if e.actor = a ∧ e.target = b then 1 else 0) := by
  by_cases h1 : e.actor = a <;> by_cases h2 : e.target = b <;>
    simp [surpassedCount, List.filter_append, h1, h2]

theorem surpassedCheck_count (ps ns : List (String × Int)) (a : String)
    (out : List SurpassedEvent) (b a0 b0 : String) :
    surpassedCount (surpassedCheck ps ns a out b) a0 b0
      = surpassedCount out a0 b0
        + (if a = a0 ∧ b = b0 ∧ emitP ps ns a b then 1 else 0) := by
  by_cases hab : a = b
  · simp only [surpassedCheck, hab, if_pos]
    have hno : ¬(b = a0 ∧ b = b0 ∧ emitP ps ns b b) := by
      rintro ⟨_, _, hem⟩
      exact hem.1 rfl
    simp [hno]
  · by_cases hcond : (lookupObj ps a).getD (-1) ≤ (lookupObj ps b).getD (-1) ∧
        (lookupObj ns b).getD (-1) < (lookupObj ns a).getD (-1) ∧
        0 < (lookupObj ns a).getD (-1)
    · have hemit : emitP ps ns a b := ⟨hab, hcond⟩
      have hstep : surpassedCheck ps ns a out b
          = out ++ [⟨a, b, (lookupObj ns a).getD (-1),
              (lookupObj ns b).getD (-1)⟩] := by
        simp [surpassedCheck, hab, hcond]
      rw [hstep, surpassedCount_append]
      by_cases h1 : a = a0
      · by_cases h2 : b = b0
        · subst h1
          subst h2
          simp [hemit]
        · simp [h1, h2]
      · simp [h1]
    · have hno : ¬(a = a0 ∧ b = b0 ∧ emitP ps ns a b) := by
        rintro ⟨_, _, hem⟩
        exact hcond hem.2
      simp [surpassedCheck, hab, hcond, hno]

theorem surpassedScanB_count (ps ns : List (String × Int)) (L : List String)
    (out : List SurpassedEvent) (a a0 b0 : String) :
    surpassedCount (surpassedScanB ps ns L out a) a0 b0
      = surpassedCount out a0 b0
        + (if a = a0 ∧ emitP ps ns a b0 then L.count b0 else 0) := by
  induction L generalizing out with
  | nil => simp [surpassedScanB]
  | cons b L ih =>
      show surpassedCount
          (surpassedScanB ps ns L (surpassedCheck ps ns a out b) a) a0 b0 = _
      rw [ih, surpassedCheck_count]
      by_cases h1 : a = a0 <;> by_cases h2 : b = b0 <;>
        by_cases h3 : emitP ps ns a b0 <;>
        simp_all [List.count_cons]
      all_goals omega

theorem surpassedScan_count (ps ns : List (String × Int)) (K L : List String)
    (out : List SurpassedEvent) (a0 b0 : String) :
    surpassedCount (L.foldl (surpassedScanB ps ns K) out) a0 b0
      = surpassedCount out a0 b0
        + (if emitP ps ns a0 b0 then L.count a0 * K.count b0 else 0) := by
  induction L generalizing out with
  | nil => simp
  | cons a L ih =>
      rw [List.foldl_cons, ih, surpassedScanB_count]
      by_cases h1 : a = a0 <;> by_cases h2 : emitP ps ns a0 b0 <;>
        simp_all [List.count_cons, Nat.add_mul]
      all_goals omega

theorem map_fst_objSet_replace {α : Type} (obj : List (String × α))
    (k : String) (v : α) :
    (obj.map (fun x => if x.1 == k then (k, v) else x)).map (fun e => e.1)
      = obj.map (fun e => e.1) := by
  induction obj with
  | nil => rfl
  | cons e obj ih =>
      simp only [List.map_cons, ih]
      by_cases he : e.1 = k <;> simp [he]

theorem objSet_keys {α : Type} (obj : List (String × α)) (k : String) (v : α) :
    (objSet obj k v).map (fun e => e.1)
      = if obj.any (fun e => e.1 == k) then obj.map (fun e => e.1)
        else obj.map (fun e => e.1) ++ [k] := by
  by_cases h : obj.any (fun e => e.1 == k)
  · simp only [objSet]
    rw [if_pos h, if_pos h]
    exact map_fst_objSet_replace obj k v
  · simp only [objSet]
    rw [if_neg h, if_neg h]
    simp

theorem objSet_keys_nodup {α : Type} (obj : List (String × α)) (k : String)
    (v : α) (hn : (obj.map (fun e => e.1)).Nodup) :
    ((objSet obj k v).map (fun e => e.1)).Nodup := by
  rw [objSet_keys]
  split_ifs with h
  · exact hn
  · have hk : k ∉ obj.map (fun e => e.1) := by
      intro hkmem
      apply h
      simp only [List.mem_map] at hkmem
      obtain ⟨e, he, hek⟩ := hkmem
      simp only [List.any_eq_true, beq_iff_eq]
      exact ⟨e, he, hek⟩
    simp [List.nodup_append, hn, hk]

theorem newScoresOf_keys_nodup (cur : List CurPlayer) :
    ((newScoresOf cur).map (fun e => e.1)).Nodup := by
  have gen : ∀ (ps : List CurPlayer) (obj : List (String × Int)),
      (obj.map (fun e => e.1)).Nodup →
      ((ps.foldl (fun m p => objSet m p.puuid (rankScore p.tier p.rank p.lp)) obj).map
          (fun e => e.1)).Nodup := by
    intro ps
    induction ps with
    | nil => intro obj h; exact h
    | cons p ps ih =>
        intro obj h
        exact ih _ (objSet_keys_nodup obj p.puuid _ h)
  exact gen cur [] (by simp)

theorem count_nodup_mem {α : Type} [DecidableEq α] (l : List α) (a : α)
    (hn : l.Nodup) : l.count a = if a ∈ l then 1 else 0 := by
  split_ifs with h
  · exact List.count_eq_one_of_mem hn h
  · exact List.count_eq_zero_of_not_mem h

/-- C6 (amended): with "A's post-cycle score is ranked" strengthened to
"strictly positive", the cross-entity pass — run once over the keys of the
`newScores` object built from the current players table, against the
single pre-cycle score snapshot — emits exactly one `surpassed(a, b)`
event iff `a` and `b` are distinct keys of that object, `a`'s pre-cycle
score (absent defaulting to `-1`) is ≤ `b`'s, `a`'s post-cycle score is
strictly greater than `b`'s, and `a`'s post-cycle score is strictly
positive; otherwise it emits none. -/
theorem c6_surpassed_amended (prevScores : List (String × Int))
    (cur : List CurPlayer) (a b : String) :
    surpassedCount (detectSurpassedMilestones prevScores cur) a b
      = if a ≠ b ∧ a ∈ (newScoresOf cur).map (fun e => e.1)
            ∧ b ∈ (newScoresOf cur).map (fun e => e.1)
            ∧ (lookupObj prevScores a).getD (-1)
                ≤ (lookupObj prevScores b).getD (-1)
            ∧ (lookupObj (newScoresOf cur) b).getD (-1)
                < (lookupObj (newScoresOf cur) a).getD (-1)
            ∧ 0 < (lookupObj (newScoresOf cur) a).getD (-1)
        then 1 else 0 := by
  have hn := newScoresOf_keys_nodup cur
  have h := surpassedScan_count prevScores (newScoresOf cur)
    ((newScoresOf cur).map (fun e => e.1)) ((newScoresOf cur).map (fun e => e.1))
    [] a b
  rw [show detectSurpassedMilestones prevScores cur
      = ((newScoresOf cur).map (fun e => e.1)).foldl
          (surpassedScanB prevScores (newScoresOf cur)
            ((newScoresOf cur).map (fun e => e.1))) [] from rfl]
  rw [h, count_nodup_mem _ a hn, count_nodup_mem _ b hn]
  have h0 : surpassedCount [] a b = 0 := rfl
  rw [h0, Nat.zero_add]
  by_cases hem : emitP prevScores (newScoresOf cur) a b
  · have hem' := hem
    obtain ⟨h1, h4, h5, h6⟩ := hem'
    by_cases ha : a ∈ (newScoresOf cur).map (fun e => e.1) <;>
      by_cases hb : b ∈ (newScoresOf cur).map (fun e => e.1) <;>
      simp [hem, h1, h4, h5, h6, ha, hb]
  · have hno : ¬(a ≠ b ∧ a ∈ (newScoresOf cur).map (fun e => e.1)
        ∧ b ∈ (newScoresOf cur).map (fun e => e.1)
        ∧ (lookupObj prevScores a).getD (-1) ≤ (lookupObj prevScores b).getD (-1)
        ∧ (lookupObj (newScoresOf cur) b).getD (-1)
            < (lookupObj (newScoresOf cur) a).getD (-1)
        ∧ 0 < (lookupObj (newScoresOf cur) a).getD (-1)) :=
      fun hc => hem ⟨hc.1, hc.2.2.2.1, hc.2.2.2.2.1, hc.2.2.2.2.2⟩
    rw [if_neg hem, if_neg hno]

/-- C6 counterexample: entity A at Iron IV 0 LP (post score `0`, a ranked
score) and entity B unranked (post score `-1`), both previously unknown
(pre scores default to `-1`): A's pre ≤ B's pre, A's post > B's post and
A's post is ranked, so the claim requires exactly one `surpassed(A, B)`,
but the scan emits nothing because it tests `newA > 0`. -/
theorem c6_counterexample :
    rankScore (some "IRON") (some "IV") 0 = 0 ∧
    rankScore none none 0 = -1 ∧
    rankScore (some "IRON") (some "IV") 0 ≠ rankScore none none 0 ∧
    rankScore none none 0 < rankScore (some "IRON") (some "IV") 0 ∧
    detectSurpassedMilestones []
      [⟨"A", "a", some "IRON", some "IV", 0⟩, ⟨"B", "b", none, none, 0⟩]
      = [] := by
  decide

/-!
Build Coordinator and Snapshot Reader, from `src/api/snapshot.js` lines
49-149: the freshness gate, the `building` lock with its `finally`
release, the fatal-error fallback, and `readPlayersFromDB`.
-/

/-- One recent-match item of the external view (`{ win, champ, k, d, a }`). -/
structure MatchView where
  win : Bool
  champ : String
  k : Int
  d : Int
  a : Int
deriving DecidableEq

/-- One rank entry of the external view. -/
structure RankView where
  queueType : String
  tier : Option String
  rank : Option String
  leaguePoints : Int
  wins : Int
  losses : Int
deriving DecidableEq

/-- One player of the external view assembled by `readPlayersFromDB`. -/
structure PlayerView where
  puuid : String
  gameName : String
  tagLine : String
  profileIconId : Int
  summonerLevel : Int
  rankData : List RankView
  inGame : Bool
  recentMatches : List MatchView
deriving DecidableEq

/-- Insertion into a list kept sorted by `played_at` descending (the
store's `order("played_at", { ascending: false })`). -/
def insertByPlayedDesc (m : PMRow) (sorted : List PMRow) : List PMRow :=
  match sorted with
  | [] => [m]
  | x :: xs =>
      if x.played_at ≤ m.played_at then m :: x :: xs
      else x :: insertByPlayedDesc m xs

/-- The `player_matches` rows ordered by `played_at` descending. -/
def sortByPlayedDesc (rows : List PMRow) : List PMRow :=
  rows.foldr insertByPlayedDesc []

/-- Embedding of `readPlayersFromDB` (lines 106-149): load all player
rows, load their `player_matches` most-recent-first, keep the first
`MAX_MATCHES` per player, and assemble the view with that list reversed
(oldest first); an empty or absent solo rank yields an empty `rankData`. -/
def readPlayersFromDB (db : DB) : List PlayerView :=
  let puuids := db.players.map (fun p => p.puuid)
  let pMatches :=
    sortByPlayedDesc (db.player_matches.filter (fun m => puuids.contains m.puuid))
  db.players.map (fun p =>
    { puuid := p.puuid
      gameName := p.game_name
      tagLine := p.tag_line
      profileIconId := p.profile_icon_id
      summonerLevel := p.summoner_level
      rankData :=
        match p.tier with
        | none => []
        | some t =>
            if t = "" then []
            else [⟨"RANKED_SOLO_5x5", some t, p.rank, p.lp, p.wins, p.losses⟩]
      inGame := p.in_game
      recentMatches :=
        ((pMatches.filter (fun m => m.puuid == p.puuid)).take MAX_MATCHES).reverse.map
          (fun m => ⟨m.win, m.champ, m.kills, m.deaths, m.assists⟩) })

/-- Outcome of the `buildSnapshot` call inside the handler's `try`: either
it returns with the store in its final state, or it throws with the store
as it stood at the failure. -/
inductive BuildOutcome where
  | ok (db : DB)
  | fatal (msg : String) (db : DB)

/-- A trigger's HTTP response: a players payload with its `cached` and
`stale` flags, or a status-500 error body. -/
inductive Resp where
  | okPlayers (players : List PlayerView) (cached : Bool) (stale : Bool)
  | errorResp (msg : String)
deriving DecidableEq

/-- What one trigger leaves behind: its response and the `building` flag
after its handling completes. -/
structure TriggerResult where
  resp : Resp
  building : Bool
deriving DecidableEq

/-- Embedding of the handler's coordination logic (lines 60-102) for one
trigger, after the env checks: `fresh` abbreviates "a latest row exists
and its age is under the freshness window"; `db0` is the store the
trigger reads on the cached paths (for the in-flight-wait path, the store
after the wait); `outcome` is what `buildSnapshot` does if this trigger
runs it. The `finally` clears `building` on both the success and the
fatal path; the wait path never touches the flag (it belongs to the other
trigger's run). -/
def handlerRun (building : Bool) (force fresh : Bool) (db0 : DB)
    (outcome : BuildOutcome) : TriggerResult :=
  if !force && fresh then
    ⟨.okPlayers (readPlayersFromDB db0) true false, building⟩
  else if building then
    ⟨.okPlayers (readPlayersFromDB db0) true false, building⟩
  else
    match outcome with
    | .ok db1 => ⟨.okPlayers (readPlayersFromDB db1) false false, false⟩
    | .fatal msg db1 =>
        let players := readPlayersFromDB db1
        if players.length ≠ 0 then ⟨.okPlayers players true true, false⟩
        else ⟨.errorResp msg, false⟩

theorem readPlayersFromDB_length (db : DB) :
    (readPlayersFromDB db).length = db.players.length := by
  simp [readPlayersFromDB]

/-- C9: a trigger that enters the running state (lock free, freshness
gate not taken) leaves the `building` flag false after its handling
completes, whether the cycle returns normally or throws. -/
theorem c9_lock_released (building force fresh : Bool) (db0 : DB)
    (outcome : BuildOutcome)
    (hb : building = false) (hrun : (!force && fresh) = false) :
    (handlerRun building force fresh db0 outcome).building = false := by
  subst hb
  unfold handlerRun
  rw [if_neg (by simp [hrun]), if_neg (by simp)]
  cases outcome with
  | ok db1 => rfl
  | fatal msg db1 =>
      dsimp only
      split_ifs <;> rfl

/-- C9 witness: a forced trigger on a free lock whose cycle throws still
ends with the lock released. -/
theorem c9_lock_released_witness :
    (handlerRun false true false st0.db (.fatal "boom" st0.db)).building
      = false :=
  c9_lock_released false true false st0.db (.fatal "boom" st0.db) rfl rfl

/-- C8: when the cycle a running trigger executes fails with a fatal
error, the response is composed from the persisted state at the failure,
marked `cached` and `stale`, whenever at least one entity row is
persisted; the hard 500 error is returned only when no entity row is
persisted at all. -/
theorem c8_fatal_fallback (building force fresh : Bool) (db0 db1 : DB)
    (msg : String)
    (hb : building = false) (hrun : (!force && fresh) = false) :
    (db1.players ≠ [] →
        (handlerRun building force fresh db0 (.fatal msg db1)).resp
          = .okPlayers (readPlayersFromDB db1) true true) ∧
      (db1.players = [] →
        (handlerRun building force fresh db0 (.fatal msg db1)).resp
          = .errorResp msg) := by
  subst hb
  unfold handlerRun
  rw [if_neg (by simp [hrun]), if_neg (by simp)]
  constructor
  · intro h
    have hlen : (readPlayersFromDB db1).length ≠ 0 := by
      rw [readPlayersFromDB_length]
      simpa using h
    dsimp only
    rw [if_pos hlen]
  · intro h
    have hlen : ¬(readPlayersFromDB db1).length ≠ 0 := by
      rw [readPlayersFromDB_length]
      simp [h]
    dsimp only
    rw [if_neg hlen]

/-- C8 witness: with one persisted row the fatal path serves the stale
cached payload; the error branch is vacuous there. -/
theorem c8_fatal_fallback_witness :
    (dbC7.players ≠ [] →
        (handlerRun false false false dbC7 (.fatal "boom" dbC7)).resp
          = .okPlayers (readPlayersFromDB dbC7) true true) ∧
      (dbC7.players = [] →
        (handlerRun false false false dbC7 (.fatal "boom" dbC7)).resp
          = .errorResp "boom") :=
  c8_fatal_fallback false false false dbC7 dbC7 "boom" rfl rfl
